import Mathlib
/-!
# Verification of the sass-bundler incremental rebuild coordinator
Shallow embedding of `src/index.ts` (the `Bundler` class and its helpers).
Paths are modelled as plain strings that are already resolved
(`path.resolve` is the identity on them); file-system and compiler I/O is
modelled by an explicit `Env` (directory listings and compile outcomes) and
by effect traces (`Effect`) recording every externally visible action a
method performs, in program order.  Timing interpolations (`${timeSince t}`)
in log messages are abstracted to the fixed text `ms`.
-/
namespace SassBundler

/-! ## The model: data, string and path helpers, the analyzer, the
compile/bundle pipeline, the event handlers, and disk semantics for
effect traces, followed by the concrete sample data used by witnesses
and counterexamples. -/

/-- `Config` / `_Config` from the source: the four recognised options. -/
structure Config where
  verbose : Bool
  sassDir : String
  outDir : String
  sharedPath : String
  deriving DecidableEq, Repr

/-- `CompiledFile` from the source.  `readStream : Bool` records whether the
compiled-css readable stream is non-null; `writeStream : Option String`
records the output path the write stream was opened on (null = `none`). -/
structure CompiledFile where
  imports : List String
  filePath : String
  readStream : Bool
  writeStream : Option String
  error : Bool
  deriving DecidableEq, Repr

/-- The external world: `dirList` models `fse.readdirSync` (immediate
directory entries only); `compile` models `sass.renderSync` with the bundler
  importer installed, returning the list of bundler-marked imports it recorded
(`none` = the compiler threw); `plainCompile` models `sass.renderSync`
without an importer (used by `writeCommon`), `false` = it threw. -/
structure Env where
  dirList : String → List String
  compile : String → Option (List String)
  plainCompile : String → Bool

/-- Externally visible actions, recorded in program order.
`createWriteStream p` is `fse.createWriteStream p` (creates/truncates `p`);
`bundleOut entry out inlined` aggregates the pipes of one `bundleSingle`
call (the non-common imports compiled and piped, then the entry body) into
the stream at `out`; `pipeShared out c` is one common import compiled and
piped into the shared stream; `reportSharedRemoved` is the constant
`console.error` text of the removed-shared-partial branch (it interpolates
no paths); `reportUsedBy l` is the removed-used-partial `console.error`,
which interpolates exactly the affected file paths `l`. -/
inductive Effect where
  | ensureDir (dir : String)
  | emptyDir (dir : String)
  | createWriteStream (p : String)
  | bundleOut (entry : String) (out : Option String) (inlined : List String)
  | pipeShared (out : String) (importPath : String)
  | endShared (p : String)
  | unlinkFile (p : String)
  | compileErrorLog (p : String)
  | consoleLog (msg : String)
  | consoleWarn (msg : String)
  | reportSharedRemoved
  | reportUsedBy (affected : List String)
  deriving DecidableEq, Repr

/-- In-memory `Bundler` instance state (the fields of the class). The
module-level `errorDetectedThisCycle` flag is *not* here: it is passed to
and returned from every handler separately, mirroring its module scope. -/
structure BundlerState where
  config : Config
  compiledFiles : Option (List CompiledFile)
  commonImports : Option (List String)
  compilationError : Bool
  deriving DecidableEq, Repr

/-- Character-list prefix test. -/
def listStartsWith : List Char → List Char → Bool
  | _, [] => true
  | [], _ :: _ => false
  | c :: cs, p :: ps => c == p && listStartsWith cs ps

/-- `s.startsWith pre`. -/
def strStartsWith (s pre : String) : Bool :=
  listStartsWith s.data pre.data

/-- Drop the first `n` characters of `s`. -/
def strDrop (s : String) (n : Nat) : String :=
  ⟨s.data.drop n⟩

/-- `s.endsWith post`. -/
def strEndsWith (s post : String) : Bool :=
  listStartsWith s.data.reverse post.data.reverse

/-- Drop the last `n` characters of `s`. -/
def strDropRight (s : String) (n : Nat) : String :=
  ⟨s.data.take (s.data.length - n)⟩

/-- Split a character list on a separator character. -/
def splitOnChar (c : Char) : List Char → List (List Char)
  | [] => [[]]
  | x :: xs =>
    let r := splitOnChar c xs
    if x == c then [] :: r
    else
      match r with
      | [] => [[x]]
      | y :: ys => (x :: y) :: ys

/-- `path.join a b`, for the shapes the bundler produces (`b` may carry a
leading separator, which `path.join` collapses). -/
def pathJoin (a b : String) : String :=
  if strStartsWith b "/" then a ++ b else a ++ "/" ++ b

/-- `path.basename`: the component after the last separator. -/
def basename (p : String) : String :=
  ⟨(splitOnChar '/' p.data).getLastD p.data⟩

/-- `relativePath p base` from the source:
`path.resolve(p).replace(path.resolve(base), "")`.  Model paths are
pre-resolved and `base` occurs (if at all) as a prefix of `p`, so removing
its first occurrence is dropping the prefix. -/
def relativePath (p base : String) : String :=
  if strStartsWith p base then strDrop p base.data.length else p

/-- The `.replace(/\.s[ca]ss$/, ".css")` rewrite. -/
def replaceExtCss (p : String) : String :=
  if strEndsWith p ".scss" || strEndsWith p ".sass" then strDropRight p 5 ++ ".css" else p

/-- `removeA`: copies `arr` and removes, for each element of `args`, the
first occurrence found by `indexOf` (one splice per argument).  This is a
fold of `List.erase`. -/
def removeA (arr : List String) (args : List String) : List String :=
  args.foldl (fun acc arg => acc.erase arg) arr

/-- `equalsIgnoreOrder`: length check, then for each value occurring in
either list, equal occurrence counts.  The source iterates a `Set` of
`[...a, ...b]`; iterating `a ++ b` with duplicates checks each value at
least once and is extensionally the same test. -/
def equalsIgnoreOrder (a b : List String) : Bool :=
  if a.length != b.length then false
  else (a ++ b).all (fun v => a.count v == b.count v)

/-- `isCommonImport`: true iff every file's import list contains
`importFile` (the source maps to the import lists and early-returns on the
first miss). -/
def isCommonImport (importFile : String) (files : List CompiledFile) : Bool :=
  files.all (fun f => f.imports.contains importFile)

/-- `identifyCommonImports`: stable-sort a copy of `files` ascending by
  import-list length (`Array.prototype.sort` with the
`a.imports.length - b.imports.length` comparator is a stable sort by that
key; modelled by the stable `List.insertionSort`), take the first element's
  imports as candidates, filter to common ones.  On an empty collection the
source dereferences `filesCopy[0].imports` of `undefined` and throws; that
branch is unreachable in every claim (all require a non-empty collection)
and is modelled as `[]`. -/
def identifyCommonImports (files : List CompiledFile) : List String :=
  let filesCopy := files.insertionSort (fun a b => a.imports.length ≤ b.imports.length)
  match filesCopy with
  | [] => []
  | f :: _ => f.imports.filter (fun i => isCommonImport i files)

/-- `cleanDist`: ensure then empty the output directory. -/
def cleanDist (cfg : Config) : List Effect :=
  [Effect.ensureDir cfg.outDir, Effect.emptyDir cfg.outDir]

/-- `compileSingle`: compile one file with the bundler importer.  On a
throw: log the formatted error, set the error flag, return the artifact
with null streams and `error := true`.  On success: compute the output path
from the sass-dir-relative path with the extension rewritten, open (create
or truncate) the write stream on it, wrap the css in a read stream. -/
def compileSingle (env : Env) (cfg : Config) (filePath : String) :
    CompiledFile × List Effect × Bool :=
  match env.compile filePath with
  | none =>
    ({ imports := [], filePath := filePath, readStream := false,
       writeStream := none, error := true },
     [Effect.compileErrorLog filePath], true)
  | some imps =>
    let relativeCssPath := replaceExtCss (relativePath filePath cfg.sassDir)
    let absoluteCssPath := pathJoin cfg.outDir relativeCssPath
    ({ imports := imps, filePath := filePath, readStream := true,
       writeStream := some absoluteCssPath, error := false },
     [Effect.createWriteStream absoluteCssPath], false)

/-- The output path `compileSingle` computes for a source path. -/
def outputCssPath (cfg : Config) (filePath : String) : String :=
  pathJoin cfg.outDir (replaceExtCss (relativePath filePath cfg.sassDir))

/-- The artifact `compileSingle` returns when the compiler succeeds with
the import list `newImports`. -/
def newFileOf (cfg : Config) (filePath : String) (newImports : List String) :
    CompiledFile :=
  { imports := newImports, filePath := filePath, readStream := true,
    writeStream := some (outputCssPath cfg filePath), error := false }

/-- The loop body of `compileDir` over an explicit name list: skip names
with the reserved `_` prefix, compile the rest in order and push every
result (the `compiled !== null` guard in the source never fails), or-ing
the error deltas. -/
def compileDirList (env : Env) (cfg : Config) (dirPath : String) :
    List String → List CompiledFile × List Effect × Bool
  | [] => ([], [], false)
  | file :: rest =>
    if strStartsWith file "_" then compileDirList env cfg dirPath rest
    else
      let c := compileSingle env cfg (pathJoin dirPath file)
      let r := compileDirList env cfg dirPath rest
      (c.1 :: r.1, c.2.1 ++ r.2.1, c.2.2 || r.2.2)

/-- `compileDir`: iterate `fse.readdirSync dirPath` (immediate entries
only — no recursion into subdirectories). -/
def compileDir (env : Env) (cfg : Config) (dirPath : String) :
    List CompiledFile × List Effect × Bool :=
  compileDirList env cfg dirPath (env.dirList dirPath)

/-- `bundleSingle`: trim the common imports out of the artifact's import
list (`removeA`; the `if (file.imports)` truthiness guard is always true
for an array), pipe each surviving import's compiled css and then the
artifact body into the artifact's write stream — aggregated into one
`bundleOut` effect carrying exactly that data — and log the path when
verbose.  The per-import `sass.renderSync` here has no try/catch in the
source; a throw would escape the handler, which no claim exercises, so the
model treats these plain compiles as succeeding. -/
def bundleSingle (cfg : Config) (file : CompiledFile) (commonImports : List String) :
    List Effect :=
  let trimmedImports := removeA file.imports commonImports
  [Effect.bundleOut file.filePath file.writeStream trimmedImports] ++
    (if cfg.verbose then [Effect.consoleLog file.filePath] else [])

/-- `bundle`: `bundleSingle` each file in order. -/
def bundle (cfg : Config) (files : List CompiledFile) (commonImports : List String) :
    List Effect :=
  files.foldl (fun acc f => acc ++ bundleSingle cfg f commonImports) []

/-- The loop of `writeCommon`: plain-compile each common import in order
and pipe it into the shared stream; on a throw, log the error and return
immediately with the error delta set (the stream is not ended). -/
def writeCommonLoop (env : Env) (sharedPath : String) :
    List String → List Effect × Bool
  | [] => ([], false)
  | c :: rest =>
    if env.plainCompile c then
      let r := writeCommonLoop env sharedPath rest
      (Effect.pipeShared sharedPath c :: r.1, r.2)
    else ([Effect.compileErrorLog c], true)

/-- `writeCommon`: open (create/truncate) the shared output stream, run the
loop, and on success end the stream and log when verbose. -/
def writeCommon (env : Env) (cfg : Config) (commonImports : List String) :
    List Effect × Bool :=
  let r := writeCommonLoop env cfg.sharedPath commonImports
  if r.2 then (Effect.createWriteStream cfg.sharedPath :: r.1, true)
  else
    (Effect.createWriteStream cfg.sharedPath :: r.1 ++ [Effect.endShared cfg.sharedPath] ++
      (if cfg.verbose then [Effect.consoleLog (basename cfg.sharedPath)] else []), false)

/-- `buildAll`: log, clean the output directory, compile the source
directory; abort if the error flag is (or became) set; otherwise identify
common imports, bundle every file, write the shared file; abort if
`writeCommon` set the flag; otherwise persist the artifacts and common
  imports when requested and log completion. -/
def buildAll (env : Env) (st : BundlerState) (persist : Bool) :
    BundlerState × List Effect :=
  let es0 := [Effect.consoleLog "---------------", Effect.consoleLog "Bundling SCSS..."]
  let esClean := cleanDist st.config
  let c := compileDir env st.config st.config.sassDir
  let files := c.1
  if st.compilationError || c.2.2 then
    ({ st with compilationError := true }, es0 ++ esClean ++ c.2.1)
  else
    let commonImports := identifyCommonImports files
    let esB := bundle st.config files commonImports
    let w := writeCommon env st.config commonImports
    if w.2 then
      ({ st with compilationError := true }, es0 ++ esClean ++ c.2.1 ++ esB ++ w.1)
    else
      let st2 :=
        if persist then
          { st with compiledFiles := some files, commonImports := some commonImports }
        else st
      (st2, es0 ++ esClean ++ c.2.1 ++ esB ++ w.1 ++
        [Effect.consoleLog "SCSS bundled (ms)", Effect.consoleLog "---------------"])

/-- The warning logged by the change handler when no state is persisted. -/
def changeNoStateMsg : String :=
  "Unable to handle \"change\" event: No common imports or compiled files have been persisted! Run .buildAll(true) first!"

/-- The warning logged by the change handler when no prior artifact for the
changed path exists. -/
def changeNoPrevMsg : String :=
  "Unable to handle \"change\" event: Previous compilation of the changed file not found!"

/-- The warning logged by the add handler (and, by a copy-paste in the
source, the remove handler) when no state is persisted. -/
def addNoStateMsg : String :=
  "Unable to handle \"add\" event: No common imports or compiled files have been persisted! Run .buildAll(true) first!"

/-- The possible outcomes of the changed-entry decision logic. -/
inductive ChangeAction where
  | rebundleOne
  | fullRebuild
  deriving DecidableEq, Repr

/-- The decision chain of `onFileChange` for a successfully recompiled
entry with a prior artifact (source lines 373–396): multiset-equal import
lists → rebundle this artifact; else a removed import that is common →
full rebuild; else, if imports were added and the common imports recomputed
over the updated collection differ (again by `equalsIgnoreOrder`) → full
rebuild; otherwise rebundle this artifact. -/
def changeDecision (oldImports newImports commonImports : List String)
    (updatedFiles : List CompiledFile) : ChangeAction :=
  if equalsIgnoreOrder newImports oldImports then .rebundleOne
  else
    let removedImports := oldImports.filter (fun i => !newImports.contains i)
    let removedCommonImports := removedImports.filter (fun i => commonImports.contains i)
    if removedCommonImports.length > 0 then .fullRebuild
    else
      let addedImports := newImports.filter (fun i => !oldImports.contains i)
      if addedImports.length > 0 then
        if !(equalsIgnoreOrder (identifyCommonImports updatedFiles) commonImports) then
          .fullRebuild
        else .rebundleOne
      else .rebundleOne

/-- The tail of `onFileChange` from `compileSingle` on (source lines
355–399), reached for entries and — because the shared-partial branch does
not return — also after a shared partial's `writeCommon`.  `esPre` is the
trace accumulated before this point. -/
def changeTail (env : Env) (global : Bool) (st : BundlerState)
    (commonImports : List String) (files : List CompiledFile)
    (filePath : String) (esPre : List Effect) :
    BundlerState × Bool × List Effect :=
  let r := compileSingle env st.config filePath
  let newFile := r.1
  let st1 := { st with compilationError := st.compilationError || r.2.2 }
  if st1.compilationError then (st1, true, esPre ++ r.2.1)
  else
    match files.find? (fun f => f.filePath == filePath) with
    | none => (st1, global, esPre ++ r.2.1 ++ [Effect.consoleWarn changeNoPrevMsg])
    | some oldFile =>
      let oldFileIndex := files.findIdx (fun f => f.filePath == filePath)
      let files2 := files.set oldFileIndex newFile
      let st2 := { st1 with compiledFiles := some files2 }
      match changeDecision oldFile.imports newFile.imports commonImports files2 with
      | .fullRebuild =>
        let b := buildAll env st2 true
        (b.1, global, esPre ++ r.2.1 ++ b.2)
      | .rebundleOne =>
        (st2, global,
         esPre ++ r.2.1 ++ bundleSingle st.config newFile commonImports ++
           [Effect.consoleLog "File bundled (ms)"])

/-- `onFileChange`.  For a partial in `commonImports` the source rewrites
the shared file and then — missing a `return` — falls through into the
entry path below, compiling the partial itself; for other in-use partials
it rebundles the affected artifacts and returns; for entries it runs
`changeTail`. -/
def onFileChange (env : Env) (global : Bool) (st : BundlerState)
    (filePath : String) : BundlerState × Bool × List Effect :=
  let es0 := [Effect.consoleLog "File changed!"]
  match st.commonImports, st.compiledFiles with
  | some commonImports, some files =>
    if strStartsWith (basename filePath) "_" then
      if commonImports.contains filePath then
        let w := writeCommon env st.config commonImports
        let st1 := { st with compilationError := st.compilationError || w.2 }
        -- no `return` in the source here: control continues into the
        -- entry-recompilation tail below
        changeTail env global st1 commonImports files filePath
          (es0 ++ w.1 ++
           [Effect.consoleLog "Modified file was an in use shared partial. Shared file rebuilt ($\x7b\x7d)"])
      else
        let affectedFiles := files.filter (fun f => f.imports.contains filePath)
        (st, global,
         es0 ++ bundle st.config affectedFiles commonImports ++
           [Effect.consoleLog "Modified file was an in use non-shared partial. Affected files rebuilt (ms)"])
    else
      changeTail env global st commonImports files filePath es0
  | _, _ => (st, global, es0 ++ [Effect.consoleWarn changeNoStateMsg])

/-- `onFileAdd`.  Partials are inert; a new entry is compiled (on failure
the error flag and the module dedup flag are set and the handler aborts),
pushed into the collection, and then either the whole tree is rebuilt (some
current common import is missing from the new imports) or just the new
artifact is bundled. -/
def onFileAdd (env : Env) (global : Bool) (st : BundlerState)
    (filePath : String) : BundlerState × Bool × List Effect :=
  let es0 := [Effect.consoleLog "File added!"]
  match st.commonImports, st.compiledFiles with
  | some commonImports, some files =>
    if strStartsWith (basename filePath) "_" then
      (st, global, es0 ++ [Effect.consoleLog "Added file was a partial. No action taken."])
    else
      let r := compileSingle env st.config filePath
      let newFile := r.1
      let st1 := { st with compilationError := st.compilationError || r.2.2 }
      if st1.compilationError then (st1, true, es0 ++ r.2.1)
      else
        let st2 := { st1 with compiledFiles := some (files ++ [newFile]) }
        let missingCommonImports :=
          commonImports.filter (fun i => !newFile.imports.contains i)
        if missingCommonImports.length > 0 then
          let b := buildAll env st2 true
          (b.1, global, es0 ++ r.2.1 ++ b.2)
        else
          (st2, global,
           es0 ++ r.2.1 ++ bundleSingle st.config newFile commonImports ++
             [Effect.consoleLog "File bundled (ms)"])
  | _, _ => (st, global, es0 ++ [Effect.consoleWarn addNoStateMsg])

/-- `onFileRemove`.  Returns `none` exactly where the source would throw on
an `undefined` access (removed entry with no matching artifact, or a
matching artifact whose write stream is null).  For a referenced partial
the handler sets the error and dedup flags and reports; a shared one is
additionally spliced out of `commonImports`.  For an entry, its output file
is unlinked, the artifact removed, and — when the recomputed common imports
differ — `buildAll` is invoked (in the source this final call is *not*
awaited; the model is synchronous, see claim C7). -/
def onFileRemove (env : Env) (global : Bool) (st : BundlerState)
    (filePath : String) : Option (BundlerState × Bool × List Effect) :=
  let es0 := [Effect.consoleLog "File removed!"]
  match st.commonImports, st.compiledFiles with
  | some commonImports, some files =>
    if strStartsWith (basename filePath) "_" then
      -- `path.resolve filePath` is the identity on model paths
      let importPath := filePath
      if (files.flatMap (fun f => f.imports)).contains importPath then
        if commonImports.contains importPath then
          some ({ st with commonImports := some (commonImports.erase importPath),
                          compilationError := true },
                true, es0 ++ [Effect.reportSharedRemoved])
        else
          let affectedFiles := files.filter (fun f => f.imports.contains importPath)
          some ({ st with compilationError := true }, true,
                es0 ++ [Effect.reportUsedBy (affectedFiles.map (fun f => f.filePath))])
      else
        some (st, global,
              es0 ++ [Effect.consoleLog "Removed file was an unused partial. No action taken."])
    else
      match files.find? (fun f => f.filePath == filePath) with
      | none => none   -- source: `this.compiledFiles[-1].writeStream` throws
      | some deletedFile =>
        match deletedFile.writeStream with
        | none => none -- source: `.path` of a null write stream throws
        | some cssPath =>
          let deletedFileIndex := files.findIdx (fun f => f.filePath == filePath)
          let files2 := files.eraseIdx deletedFileIndex
          let st1 := { st with compiledFiles := some files2 }
          let newCommonImports := identifyCommonImports files2
          if !(equalsIgnoreOrder newCommonImports commonImports) then
            let b := buildAll env st1 true
            some (b.1, global, es0 ++ [Effect.unlinkFile cssPath] ++ b.2)
          else
            some (st1, global,
                  es0 ++ [Effect.unlinkFile cssPath] ++
                    [Effect.consoleLog "Removed file processed (ms)"])
  | _, _ => some (st, global, es0 ++ [Effect.consoleWarn addNoStateMsg])

/-- The catch-all `"all"` listener installed in `onChokidarReady`: inert
unless the instance error flag is set; then the module-level dedup flag, if
set, is consumed and the event ignored; otherwise the error flag is cleared
and a full rebuild runs. -/
def onAnyEvent (env : Env) (global : Bool) (st : BundlerState) :
    BundlerState × Bool × List Effect :=
  if !st.compilationError then (st, global, [])
  else if global then (st, false, [])
  else
    let b := buildAll env { st with compilationError := false } true
    (b.1, global, b.2)

/-- A disk: association list from path to contents. -/
def Disk := List (String × String)

/-- Content of `p`, if the file exists. -/
def diskGet (d : Disk) (p : String) : Option String :=
  (List.find? (fun kv => kv.1 == p) d).map (fun kv => kv.2)

/-- Write `v` to `p` (create or replace). -/
def diskSet (d : Disk) (p v : String) : Disk :=
  (p, v) :: List.filter (fun kv => kv.1 != p) d

/-- A stand-in for the css text `bundleSingle` writes for an entry. -/
def bundleText (entry : String) (inlined : List String) : String :=
  String.intercalate "|" (inlined ++ [entry])

/-- Interpret one effect on the disk. -/
def applyEffect (d : Disk) : Effect → Disk
  | .emptyDir dir => List.filter (fun kv => !(strStartsWith kv.1 (dir ++ "/"))) d
  | .createWriteStream p => diskSet d p ""
  | .bundleOut entry (some out) inlined =>
    diskSet d out (((diskGet d out).getD "") ++ bundleText entry inlined)
  | .bundleOut _ none _ => d
  | .pipeShared out c => diskSet d out (((diskGet d out).getD "") ++ c ++ ";")
  | .unlinkFile p => List.filter (fun kv => kv.1 != p) d
  | _ => d

/-- Interpret a trace left to right. -/
def applyTrace (d : Disk) (es : List Effect) : Disk :=
  es.foldl applyEffect d

/-- "Only this one artifact was re-bundled": the handler output keeps
`commonImports` unchanged, stores the updated artifact collection, contains
the bundle of exactly this artifact against the unchanged common imports,
and performs no full rebuild (no output-directory clean). -/
def rebundledOnlyOne (out : BundlerState × Bool × List Effect)
    (newFile : CompiledFile) (commonImports : List String)
    (files2 : List CompiledFile) (outDir : String) : Prop :=
  out.1.commonImports = some commonImports ∧
  out.1.compiledFiles = some files2 ∧
  Effect.bundleOut newFile.filePath newFile.writeStream
      (removeA newFile.imports commonImports) ∈ out.2.2 ∧
  Effect.emptyDir outDir ∉ out.2.2 ∧
  (∀ e o inl, Effect.bundleOut e o inl ∈ out.2.2 → e = newFile.filePath)

/-- A sample configuration matching the defaults' shape. -/
def cfg0 : Config :=
  { verbose := false, sassDir := "sass", outDir := "build",
    sharedPath := "build/shared.css" }

/-- Sample artifact for `sass/a.scss` importing two partials. -/
def cfA : CompiledFile :=
  { imports := ["sass/_p.scss", "sass/_q.scss"], filePath := "sass/a.scss",
    readStream := true, writeStream := some "build/a.css", error := false }

/-- Sample artifact for `sass/b.scss` importing one partial. -/
def cfB : CompiledFile :=
  { imports := ["sass/_p.scss"], filePath := "sass/b.scss",
    readStream := true, writeStream := some "build/b.css", error := false }

/-- The changed-entry decision exactly as claim C2 words it: plain *set*
comparisons throughout, including comparing the common imports recomputed
over the updated collection with the prior value as sets. -/
def claimedChangeDecision (oldImports newImports commonImports : List String)
    (updatedFiles : List CompiledFile) : ChangeAction :=
  if newImports.all (fun x => oldImports.contains x) &&
      oldImports.all (fun x => newImports.contains x) then .rebundleOne
  else if oldImports.any (fun i => !newImports.contains i && commonImports.contains i) then
    .fullRebuild
  else if newImports.any (fun i => !oldImports.contains i) &&
      !((identifyCommonImports updatedFiles).all (fun x => commonImports.contains x) &&
        commonImports.all (fun x => (identifyCommonImports updatedFiles).contains x)) then
    .fullRebuild
  else .rebundleOne

/-- Environment for the C2 counterexample: recompiling `a.scss` records
  imports `[q, q, s]`; `b.scss` records `[q, q]`. -/
def envC2 : Env :=
  { dirList := fun _ => ["a.scss", "b.scss"],
    compile := fun p =>
      if p == "sass/a.scss" then some ["q", "q", "s"]
      else if p == "sass/b.scss" then some ["q", "q"] else none,
    plainCompile := fun _ => true }

/-- Prior artifact of `a.scss` (single import `q`) for the C2
counterexample. -/
def oldA2 : CompiledFile :=
  { imports := ["q"], filePath := "sass/a.scss", readStream := true,
    writeStream := some "build/a.css", error := false }

/-- Prior artifact of `b.scss` (duplicated import `q`) for the C2
counterexample. -/
def oldB2 : CompiledFile :=
  { imports := ["q", "q"], filePath := "sass/b.scss", readStream := true,
    writeStream := some "build/b.css", error := false }

/-- Persisted coordinator state for the C2 counterexample. -/
def stC2 : BundlerState :=
  { config := cfg0, compiledFiles := some [oldA2, oldB2],
    commonImports := some ["q"], compilationError := false }

/-- Environment for the C2 witness: recompiling `a.scss` records the same
single import as before. -/
def envC2w : Env :=
  { dirList := fun _ => ["a.scss"],
    compile := fun p => if p == "sass/a.scss" then some ["sass/_p.scss"] else none,
    plainCompile := fun _ => true }

/-- Artifact of `a.scss` importing only `_p.scss` (C2 witness, C3, C10). -/
def cfA1 : CompiledFile :=
  { imports := ["sass/_p.scss"], filePath := "sass/a.scss", readStream := true,
    writeStream := some "build/a.css", error := false }

/-- Persisted coordinator state for the C2 witness. -/
def stC2w : BundlerState :=
  { config := cfg0, compiledFiles := some [cfA1],
    commonImports := some ["sass/_p.scss"], compilationError := false }

/-- Environment for C3: the shared partial `_p.scss` itself compiles with
no bundler imports; entries record their import of it. -/
def envC3 : Env :=
  { dirList := fun _ => ["a.scss", "b.scss"],
    compile := fun p =>
      if p == "sass/_p.scss" then some []
      else if p == "sass/a.scss" then some ["sass/_p.scss"]
      else if p == "sass/b.scss" then some ["sass/_p.scss"] else none,
    plainCompile := fun _ => true }

/-- Persisted state for C3: two entries, both importing the shared partial
`_p.scss`, which is the sole common import. -/
def stC3 : BundlerState :=
  { config := cfg0, compiledFiles := some [cfA1, cfB],
    commonImports := some ["sass/_p.scss"], compilationError := false }

/-- Environment for the C10 witness: a fresh `c.scss` compiles with no
  imports. -/
def envC10 : Env :=
  { dirList := fun _ => ["a.scss", "b.scss"],
    compile := fun p => if p == "sass/c.scss" then some [] else none,
    plainCompile := fun _ => true }

/-- Environment for the C6 witness: the added `c.scss` records the shared
partial import, so the common-import set is a subset of its imports. -/
def envC6 : Env :=
  { dirList := fun _ => ["a.scss", "b.scss", "c.scss"],
    compile := fun p =>
      if p == "sass/c.scss" then some ["sass/_p.scss"]
      else if p == "sass/a.scss" then some ["sass/_p.scss"]
      else if p == "sass/b.scss" then some ["sass/_p.scss"] else none,
    plainCompile := fun _ => true }

/-- State for the C5 witness: `a.scss` additionally imports the non-shared
partial `_q.scss`. -/
def stC5w : BundlerState :=
  { config := cfg0, compiledFiles := some [cfA, cfB],
    commonImports := some ["sass/_p.scss"], compilationError := false }

/-- Environment for C4: `a.scss` compiles, `bad.scss` throws. -/
def envC4 : Env :=
  { dirList := fun _ => ["a.scss", "bad.scss"],
    compile := fun p => if p == "sass/a.scss" then some [] else none,
    plainCompile := fun _ => true }

/-- A fresh (never-built) coordinator state. -/
def stFresh : BundlerState :=
  { config := cfg0, compiledFiles := none, commonImports := none,
    compilationError := false }

/-- The prior successful cycle's outputs on disk. -/
def diskC4 : Disk :=
  [("build/a.css", "oldA"), ("build/b.css", "oldB")]

/-- An environment in which every compile throws. -/
def envFail : Env :=
  { dirList := fun _ => [], compile := fun _ => none,
    plainCompile := fun _ => true }

/-- A second coordinator instance (different config) with its own error
flag set. -/
def stErr2 : BundlerState :=
  { config := { verbose := false, sassDir := "sass2", outDir := "build2",
                sharedPath := "build2/shared.css" },
    compiledFiles := none, commonImports := none, compilationError := true }

/-- Environment for C9: the source tree has `a.scss` at top level and
`b.scss` nested inside the subdirectory `_sub`. -/
def envC9 : Env :=
  { dirList := fun d =>
      if d == "sass" then ["a.scss", "_sub"]
      else if d == "sass/_sub" then ["b.scss"] else [],
    compile := fun p =>
      if p == "sass/a.scss" then some []
      else if p == "sass/_sub/b.scss" then some [] else none,
    plainCompile := fun _ => true }

/-- Artifact of `a.scss` with no imports. -/
def cfA0 : CompiledFile :=
  { imports := [], filePath := "sass/a.scss", readStream := true,
    writeStream := some "build/a.css", error := false }

/-- Environment for C7: after removing `a.scss`, only `b.scss` remains. -/
def envC7 : Env :=
  { dirList := fun _ => ["b.scss"],
    compile := fun p => if p == "sass/b.scss" then some ["sass/_p.scss"] else none,
    plainCompile := fun _ => true }

/-- State for C7: entries `a.scss` (no imports) and `b.scss` (imports
`_p.scss`); the common-import set is empty. -/
def stC7 : BundlerState :=
  { config := cfg0, compiledFiles := some [cfA0, cfB],
    commonImports := some [], compilationError := false }

/-! ## Lemmas and claim theorems. -/

/-- `compileSingle` on a successful compile, in terms of the above. -/
theorem compileSingle_success (env : Env) (cfg : Config) (filePath : String)
    (newImports : List String) (hcomp : env.compile filePath = some newImports) :
    compileSingle env cfg filePath =
      (newFileOf cfg filePath newImports,
       [Effect.createWriteStream (outputCssPath cfg filePath)], false) := by
  simp [compileSingle, hcomp, newFileOf, outputCssPath]

/-- `isCommonImport` decides membership in every import list. -/
theorem isCommonImport_iff (x : String) (files : List CompiledFile) :
    isCommonImport x files = true ↔ ∀ f ∈ files, x ∈ f.imports := by
  simp [isCommonImport, List.contains]

/-- Membership in `identifyCommonImports` of a non-empty collection is
exactly membership in every artifact's import list. -/
theorem mem_identifyCommonImports {files : List CompiledFile} (h : files ≠ [])
    (x : String) :
    x ∈ identifyCommonImports files ↔ ∀ f ∈ files, x ∈ f.imports := by
  have hperm :
      List.Perm (files.insertionSort (fun a b => a.imports.length ≤ b.imports.length)) files :=
    List.perm_insertionSort _ files
  unfold identifyCommonImports
  cases hms : files.insertionSort (fun a b => a.imports.length ≤ b.imports.length) with
  | nil =>
    rw [hms] at hperm
    exact absurd (List.nil_perm.mp hperm) h
  | cons f rest =>
    rw [hms] at hperm
    have hf : f ∈ files := hperm.mem_iff.mp (List.mem_cons_self f rest)
    simp only [List.mem_filter]
    constructor
    · rintro ⟨_, hcommon⟩
      exact (isCommonImport_iff x files).mp hcommon
    · intro hall
      exact ⟨hall f hf, (isCommonImport_iff x files).mpr hall⟩

/-- `equalsIgnoreOrder` decides permutation (multiset) equality. -/
theorem equalsIgnoreOrder_iff_perm (a b : List String) :
    equalsIgnoreOrder a b = true ↔ List.Perm a b := by
  unfold equalsIgnoreOrder
  by_cases hlen : a.length = b.length
  · simp only [hlen, bne_self_eq_false, Bool.false_eq_true, if_false, List.all_eq_true]
    constructor
    · intro hEq
      rw [List.perm_iff_count]
      intro v
      by_cases hv : v ∈ a ++ b
      · exact beq_iff_eq.mp (hEq v hv)
      · rw [List.mem_append] at hv
        push_neg at hv
        rw [List.count_eq_zero_of_not_mem hv.1, List.count_eq_zero_of_not_mem hv.2]
    · intro hperm v _
      exact beq_iff_eq.mpr (hperm.count_eq v)
  · have hne : (a.length != b.length) = true := by simpa [bne_iff_ne] using hlen
    simp only [hne, if_true]
    constructor
    · intro h
      exact absurd h Bool.false_ne_true
    · intro hperm
      exact absurd hperm.length_eq hlen

/-- `List.contains` on strings is the decidable membership test. -/
theorem contains_eq_decide (l : List String) (a : String) :
    l.contains a = decide (a ∈ l) := by
  simp [List.contains]

/-- The changed-entry decision, characterised by the import-set relations
the spec speaks about.  The first branch is plain set equality; removal is
set difference; but the recomputed common imports are compared to the prior
value by `equalsIgnoreOrder`, i.e. as multisets (`List.Perm`), not as
sets. -/
theorem changeDecision_spec (old new common : List String)
    (updated : List CompiledFile) :
    changeDecision old new common updated =
      (if (∀ x ∈ new, x ∈ old) ∧ (∀ x ∈ old, x ∈ new) then ChangeAction.rebundleOne
       else if ∃ i ∈ old, i ∉ new ∧ i ∈ common then ChangeAction.fullRebuild
       else if (∃ i ∈ new, i ∉ old) ∧
           ¬ List.Perm (identifyCommonImports updated) common then
         ChangeAction.fullRebuild
       else ChangeAction.rebundleOne) := by
  by_cases hc1 : (∀ x ∈ new, x ∈ old) ∧ (∀ x ∈ old, x ∈ new)
  · rw [if_pos hc1]
    have hrem : old.filter (fun i => !new.contains i) = [] := by
      apply List.filter_eq_nil_iff.mpr
      intro a ha
      simp only [contains_eq_decide, Bool.not_eq_true', decide_eq_false_iff_not,
        Decidable.not_not]
      exact hc1.2 a ha
    have hadd : new.filter (fun i => !old.contains i) = [] := by
      apply List.filter_eq_nil_iff.mpr
      intro a ha
      simp only [contains_eq_decide, Bool.not_eq_true', decide_eq_false_iff_not,
        Decidable.not_not]
      exact hc1.1 a ha
    dsimp only [changeDecision]
    split <;> simp_all [List.length_pos, List.filter_eq_nil_iff]
  · rw [if_neg hc1]
    have h1 : equalsIgnoreOrder new old = false := by
      rw [Bool.eq_false_iff]
      intro h
      have hp := (equalsIgnoreOrder_iff_perm new old).mp h
      exact hc1 ⟨fun x hx => hp.mem_iff.mp hx, fun x hx => hp.mem_iff.mpr hx⟩
    by_cases hc2 : ∃ i ∈ old, i ∉ new ∧ i ∈ common
    · rw [if_pos hc2]
      obtain ⟨i, hiold, hinew, hicommon⟩ := hc2
      have hmem : i ∈ (old.filter (fun j => !new.contains j)).filter
          (fun j => common.contains j) := by
        simp only [List.mem_filter, contains_eq_decide, Bool.not_eq_true',
          decide_eq_false_iff_not, decide_eq_true_eq]
        exact ⟨⟨hiold, hinew⟩, hicommon⟩
      have hlen := List.length_pos_of_mem hmem
      dsimp only [changeDecision]
      split <;> simp_all
    · rw [if_neg hc2]
      have hrc : (old.filter (fun j => !new.contains j)).filter
          (fun j => common.contains j) = [] := by
        apply List.filter_eq_nil_iff.mpr
        intro a ha
        simp only [List.mem_filter, contains_eq_decide, Bool.not_eq_true',
          decide_eq_false_iff_not, decide_eq_true_eq] at ha ⊢
        intro hacommon
        exact hc2 ⟨a, ha.1, ha.2, hacommon⟩
      by_cases hadd : ∃ i ∈ new, i ∉ old
      · obtain ⟨i, hinew, hiold⟩ := hadd
        have hmem : i ∈ new.filter (fun j => !old.contains j) := by
          simp only [List.mem_filter, contains_eq_decide, Bool.not_eq_true',
            decide_eq_false_iff_not]
          exact ⟨hinew, hiold⟩
        have hlen := List.length_pos_of_mem hmem
        by_cases hperm : List.Perm (identifyCommonImports updated) common
        · rw [if_neg (fun hcon => hcon.2 hperm)]
          have heq : equalsIgnoreOrder (identifyCommonImports updated) common = true :=
            (equalsIgnoreOrder_iff_perm _ _).mpr hperm
          dsimp only [changeDecision]
          split <;> simp_all
        · rw [if_pos ⟨⟨i, hinew, hiold⟩, hperm⟩]
          have heq : equalsIgnoreOrder (identifyCommonImports updated) common = false := by
            rw [Bool.eq_false_iff]
            intro h
            exact hperm ((equalsIgnoreOrder_iff_perm _ _).mp h)
          dsimp only [changeDecision]
          split <;> simp_all
      · rw [if_neg (fun h => hadd h.1)]
        have hadd2 : new.filter (fun j => !old.contains j) = [] := by
          apply List.filter_eq_nil_iff.mpr
          intro a ha
          simp only [contains_eq_decide, Bool.not_eq_true', decide_eq_false_iff_not,
            Decidable.not_not]
          by_contra hnot
          exact hadd ⟨a, ha, hnot⟩
        dsimp only [changeDecision]
        split <;> simp_all [List.length_pos, List.filter_eq_nil_iff]

/-- Every full build empties the output directory (the `cleanDist` prefix
of its trace). -/
theorem emptyDir_mem_buildAll (env : Env) (st : BundlerState) (persist : Bool) :
    Effect.emptyDir st.config.outDir ∈ (buildAll env st persist).2 := by
  unfold buildAll
  dsimp only
  split
  · simp [cleanDist]
  · split <;> simp [cleanDist]

/-- `bundleSingle` never cleans a directory. -/
theorem emptyDir_not_mem_bundleSingle (cfg : Config) (f : CompiledFile)
    (common : List String) (d : String) :
    Effect.emptyDir d ∉ bundleSingle cfg f common := by
  unfold bundleSingle
  cases cfg.verbose <;> simp

/-- The only page output `bundleSingle` writes is its own artifact's. -/
theorem bundleOut_mem_bundleSingle (cfg : Config) (f : CompiledFile)
    (common : List String) (e : String) (o : Option String) (inl : List String)
    (h : Effect.bundleOut e o inl ∈ bundleSingle cfg f common) :
    e = f.filePath ∧ o = f.writeStream ∧ inl = removeA f.imports common := by
  unfold bundleSingle at h
  cases cfg.verbose <;> simp at h <;> exact ⟨h.1, h.2.1, h.2.2⟩

/-- `bundleSingle` does write its artifact's page output. -/
theorem bundleOut_self_mem_bundleSingle (cfg : Config) (f : CompiledFile)
    (common : List String) :
    Effect.bundleOut f.filePath f.writeStream (removeA f.imports common) ∈
      bundleSingle cfg f common := by
  unfold bundleSingle
  cases cfg.verbose <;> simp

/-- With persisted state, a changed file that is not a partial goes
straight to the recompile tail. -/
theorem onFileChange_entry_eq (env : Env) (global : Bool) (st : BundlerState)
    (filePath : String) (commonImports : List String) (files : List CompiledFile)
    (hci : st.commonImports = some commonImports)
    (hcf : st.compiledFiles = some files)
    (hent : strStartsWith (basename filePath) "_" = false) :
    onFileChange env global st filePath =
      changeTail env global st commonImports files filePath
        [Effect.consoleLog "File changed!"] := by
  unfold onFileChange
  rw [hci, hcf]
  dsimp only
  rw [if_neg (show ¬ (strStartsWith (basename filePath) "_" = true) by simp [hent])]

/-- The recompile tail, reduced under: no pending error, the compiler
succeeds, and a prior artifact for the path exists. -/
theorem changeTail_entry_eq (env : Env) (global : Bool) (st : BundlerState)
    (commonImports : List String) (files : List CompiledFile)
    (filePath : String) (esPre : List Effect)
    (newImports : List String) (oldFile : CompiledFile)
    (herr : st.compilationError = false)
    (hcomp : env.compile filePath = some newImports)
    (hfind : files.find? (fun f => f.filePath == filePath) = some oldFile) :
    changeTail env global st commonImports files filePath esPre =
      (let newFile := newFileOf st.config filePath newImports
       let files2 := files.set (files.findIdx (fun f => f.filePath == filePath)) newFile
       let st2 : BundlerState :=
         { st with compilationError := false, compiledFiles := some files2 }
       match changeDecision oldFile.imports newImports commonImports files2 with
       | .fullRebuild =>
         ((buildAll env st2 true).1, global,
          esPre ++ [Effect.createWriteStream (outputCssPath st.config filePath)] ++
            (buildAll env st2 true).2)
       | .rebundleOne =>
         (st2, global,
          esPre ++ [Effect.createWriteStream (outputCssPath st.config filePath)] ++
            bundleSingle st.config newFile commonImports ++
            [Effect.consoleLog "File bundled (ms)"])) := by
  have hr := compileSingle_success env st.config filePath newImports hcomp
  unfold changeTail
  rw [hr]
  try dsimp only
  simp only [herr, Bool.or_false]
  rw [if_neg (show ¬ (false = true) by simp)]
  rw [hfind]
  dsimp only [newFileOf]

/-- A handler output of the single-rebundle shape satisfies
`rebundledOnlyOne`. -/
theorem rebundledOnlyOne_mk (cfg : Config) (newFile : CompiledFile)
    (commonImports : List String) (files2 : List CompiledFile)
    (stOut : BundlerState) (g : Bool) (log1 cp log2 d : String)
    (h1 : stOut.commonImports = some commonImports)
    (h2 : stOut.compiledFiles = some files2) :
    rebundledOnlyOne
      (stOut, g,
       [Effect.consoleLog log1] ++ [Effect.createWriteStream cp] ++
         bundleSingle cfg newFile commonImports ++ [Effect.consoleLog log2])
      newFile commonImports files2 d := by
  refine ⟨h1, h2, ?_, ?_, ?_⟩
  · exact List.mem_append.mpr (Or.inl (List.mem_append.mpr
      (Or.inr (bundleOut_self_mem_bundleSingle cfg newFile commonImports))))
  · intro hmem
    cases hv : cfg.verbose <;> simp [bundleSingle, hv] at hmem
  · intro e o inl hmem
    cases hv : cfg.verbose <;> simp [bundleSingle, hv] at hmem <;> exact hmem.1

/-- C2 (amended): for a changed entry — state persisted, no pending error,
recompilation succeeds, a prior artifact exists — if the new import list
set-equals the old one, only this artifact is re-bundled; else if some
removed import lies in `commonImports`, a full rebuild runs; else if
  imports were added and the common imports recomputed over the updated
collection differ from the prior value *as multisets* (the source's
`equalsIgnoreOrder` counts duplicate occurrences), a full rebuild runs; in
every remaining case only this artifact is re-bundled and `commonImports`
is left unchanged. -/
theorem C2_changed_entry_decision (env : Env) (global : Bool) (st : BundlerState)
    (filePath : String) (commonImports : List String) (files : List CompiledFile)
    (newImports : List String) (oldFile : CompiledFile)
    (hci : st.commonImports = some commonImports)
    (hcf : st.compiledFiles = some files)
    (herr : st.compilationError = false)
    (hent : strStartsWith (basename filePath) "_" = false)
    (hcomp : env.compile filePath = some newImports)
    (hfind : files.find? (fun f => f.filePath == filePath) = some oldFile) :
    if (∀ x ∈ newImports, x ∈ oldFile.imports) ∧ (∀ x ∈ oldFile.imports, x ∈ newImports) then
      rebundledOnlyOne (onFileChange env global st filePath)
        (newFileOf st.config filePath newImports) commonImports
        (files.set (files.findIdx (fun f => f.filePath == filePath))
          (newFileOf st.config filePath newImports)) st.config.outDir
    else if ∃ i ∈ oldFile.imports, i ∉ newImports ∧ i ∈ commonImports then
      Effect.emptyDir st.config.outDir ∈ (onFileChange env global st filePath).2.2
    else if (∃ i ∈ newImports, i ∉ oldFile.imports) ∧
        ¬ List.Perm (identifyCommonImports
            (files.set (files.findIdx (fun f => f.filePath == filePath))
              (newFileOf st.config filePath newImports))) commonImports then
      Effect.emptyDir st.config.outDir ∈ (onFileChange env global st filePath).2.2
    else
      rebundledOnlyOne (onFileChange env global st filePath)
        (newFileOf st.config filePath newImports) commonImports
        (files.set (files.findIdx (fun f => f.filePath == filePath))
          (newFileOf st.config filePath newImports)) st.config.outDir := by
  have hout := (onFileChange_entry_eq env global st filePath commonImports files
      hci hcf hent).trans
    (changeTail_entry_eq env global st commonImports files filePath
      [Effect.consoleLog "File changed!"] newImports oldFile herr hcomp hfind)
  dsimp only at hout
  rw [changeDecision_spec] at hout
  by_cases hA : (∀ x ∈ newImports, x ∈ oldFile.imports) ∧ (∀ x ∈ oldFile.imports, x ∈ newImports)
  · rw [if_pos hA]
    rw [if_pos hA] at hout
    rw [hout]
    exact rebundledOnlyOne_mk st.config _ commonImports _ _ global _ _ _ _ hci rfl
  · rw [if_neg hA]
    rw [if_neg hA] at hout
    by_cases hB : ∃ i ∈ oldFile.imports, i ∉ newImports ∧ i ∈ commonImports
    · rw [if_pos hB]
      rw [if_pos hB] at hout
      rw [hout]
      exact List.mem_append.mpr (Or.inr (emptyDir_mem_buildAll env _ true))
    · rw [if_neg hB]
      rw [if_neg hB] at hout
      by_cases hC : (∃ i ∈ newImports, i ∉ oldFile.imports) ∧
          ¬ List.Perm (identifyCommonImports
              (files.set (files.findIdx (fun f => f.filePath == filePath))
                (newFileOf st.config filePath newImports))) commonImports
      · rw [if_pos hC]
        rw [if_pos hC] at hout
        rw [hout]
        exact List.mem_append.mpr (Or.inr (emptyDir_mem_buildAll env _ true))
      · rw [if_neg hC]
        rw [if_neg hC] at hout
        rw [hout]
        exact rebundledOnlyOne_mk st.config _ commonImports _ _ global _ _ _ _ hci rfl

/-- C1: for every non-empty collection, `identifyCommonImports` returns
exactly the references present in every artifact's import list (membership
characterisation), the returned set is invariant under reordering of the
collection, and on a one-artifact collection it returns that artifact's
own import list verbatim. -/
theorem C1_identifyCommonImports_is_intersection (files : List CompiledFile)
    (h : files ≠ []) :
    (∀ x, x ∈ identifyCommonImports files ↔ ∀ f ∈ files, x ∈ f.imports) ∧
    (∀ files2, List.Perm files files2 →
      ∀ x, (x ∈ identifyCommonImports files ↔ x ∈ identifyCommonImports files2)) ∧
    (∀ a, files = [a] → identifyCommonImports files = a.imports) := by
  refine ⟨mem_identifyCommonImports h, ?_, ?_⟩
  · intro files2 hperm x
    have h2 : files2 ≠ [] := by
      intro hnil
      rw [hnil] at hperm
      exact h hperm.eq_nil
    rw [mem_identifyCommonImports h x, mem_identifyCommonImports h2 x]
    constructor
    · intro hall f hf
      exact hall f (hperm.mem_iff.mpr hf)
    · intro hall f hf
      exact hall f (hperm.mem_iff.mp hf)
  · rintro a rfl
    simp only [identifyCommonImports, List.insertionSort]
    apply List.filter_eq_self.mpr
    intro x hx
    simp only [isCommonImport, List.contains, List.all_eq_true, List.mem_singleton]
    rintro f rfl
    simpa using hx

/-- Witness for C1 at the two-artifact collection `[cfA, cfB]`. -/
theorem C1_witness :
    (∀ x, x ∈ identifyCommonImports [cfA, cfB] ↔ ∀ f ∈ [cfA, cfB], x ∈ f.imports) ∧
    (∀ files2, List.Perm [cfA, cfB] files2 →
      ∀ x, (x ∈ identifyCommonImports [cfA, cfB] ↔ x ∈ identifyCommonImports files2)) ∧
    (∀ a, [cfA, cfB] = [a] → identifyCommonImports [cfA, cfB] = a.imports) :=
  C1_identifyCommonImports_is_intersection [cfA, cfB] (by simp)

/-- C2 counterexample: with artifacts `a.scss ↦ [q]`, `b.scss ↦ [q, q]`
and `commonImports = [q]`, changing `a.scss` to import `[q, q, s]` adds
`s` but leaves the common-import *set* `\x7bq\x7d` unchanged, so the claim
prescribes re-bundling only `a.scss`; the code compares the recomputed
list `[q, q]` against `[q]` with `equalsIgnoreOrder`, finds them
different, and performs a full rebuild. -/
theorem C2_counterexample :
    claimedChangeDecision ["q"] ["q", "q", "s"] ["q"]
        [newFileOf cfg0 "sass/a.scss" ["q", "q", "s"], oldB2] =
      ChangeAction.rebundleOne ∧
    changeDecision ["q"] ["q", "q", "s"] ["q"]
        [newFileOf cfg0 "sass/a.scss" ["q", "q", "s"], oldB2] =
      ChangeAction.fullRebuild ∧
    Effect.emptyDir "build" ∈ (onFileChange envC2 false stC2 "sass/a.scss").2.2 := by
  refine ⟨by decide, by decide, by decide⟩

/-- Witness for the amended C2 at a concrete unchanged-imports edit: only
the one artifact is re-bundled. -/
theorem C2_witness :
    rebundledOnlyOne (onFileChange envC2w false stC2w "sass/a.scss")
      (newFileOf cfg0 "sass/a.scss" ["sass/_p.scss"]) ["sass/_p.scss"]
      [newFileOf cfg0 "sass/a.scss" ["sass/_p.scss"]] "build" := by
  have h := C2_changed_entry_decision envC2w false stC2w "sass/a.scss"
    ["sass/_p.scss"] [cfA1] ["sass/_p.scss"] cfA1 rfl rfl rfl
    (by decide) (by decide) (by decide)
  rw [if_pos (by decide)] at h
  exact h

/-- C3: editing the shared partial `_p.scss` while it is a common import
rewrites the shared output — but, the branch missing a `return`, control
falls through into the entry path: the partial itself is compiled as an
entry, a stray per-page output file `build/_p.css` is created (truncated)
by the write stream, and a spurious no-prior-compilation warning is
logged.  The in-memory state is unchanged. -/
theorem C3_shared_edit_fallthrough :
    (onFileChange envC3 false stC3 "sass/_p.scss").1 = stC3 ∧
    (onFileChange envC3 false stC3 "sass/_p.scss").2.1 = false ∧
    Effect.createWriteStream "build/shared.css" ∈
      (onFileChange envC3 false stC3 "sass/_p.scss").2.2 ∧
    Effect.createWriteStream "build/_p.css" ∈
      (onFileChange envC3 false stC3 "sass/_p.scss").2.2 ∧
    Effect.consoleWarn changeNoPrevMsg ∈
      (onFileChange envC3 false stC3 "sass/_p.scss").2.2 := by
  refine ⟨by decide, by decide, by decide, by decide, by decide⟩

/-- Writing to a path makes `diskGet` see the new contents. -/
theorem diskGet_diskSet (d : Disk) (p v : String) :
    diskGet (diskSet d p v) p = some v := by
  simp [diskGet, diskSet]

/-- The recompile tail when no prior artifact exists: warn and abort,
leaving only the compile side effects in the trace. -/
theorem changeTail_noprior_eq (env : Env) (global : Bool) (st : BundlerState)
    (commonImports : List String) (files : List CompiledFile)
    (filePath : String) (esPre : List Effect) (imps : List String)
    (herr : st.compilationError = false)
    (hcomp : env.compile filePath = some imps)
    (hnone : files.find? (fun f => f.filePath == filePath) = none) :
    changeTail env global st commonImports files filePath esPre =
      ({ st with compilationError := false }, global,
       esPre ++ [Effect.createWriteStream (outputCssPath st.config filePath)] ++
         [Effect.consoleWarn changeNoPrevMsg]) := by
  have hr := compileSingle_success env st.config filePath imps hcomp
  unfold changeTail
  rw [hr]
  try dsimp only
  simp only [herr, Bool.or_false]
  rw [if_neg (show ¬ (false = true) by simp)]
  rw [hnone]

/-- C10: on a successful compile, `compileSingle` immediately opens a write
stream on the computed output path (creating or truncating that file)
before any bundling; consequently a change event for an entry with no
prior artifact — which warns and aborts without bundling — still leaves a
newly created, empty output file on disk, and the in-memory state
untouched. -/
theorem C10_compileSingle_creates_output (env : Env) (global : Bool)
    (st : BundlerState) (filePath : String) (imps : List String)
    (commonImports : List String) (files : List CompiledFile)
    (hcomp : env.compile filePath = some imps)
    (hci : st.commonImports = some commonImports)
    (hcf : st.compiledFiles = some files)
    (herr : st.compilationError = false)
    (hent : strStartsWith (basename filePath) "_" = false)
    (hnoprior : files.find? (fun f => f.filePath == filePath) = none) :
    compileSingle env st.config filePath =
      (newFileOf st.config filePath imps,
       [Effect.createWriteStream (outputCssPath st.config filePath)], false) ∧
    (onFileChange env global st filePath).2.2 =
      [Effect.consoleLog "File changed!",
       Effect.createWriteStream (outputCssPath st.config filePath),
       Effect.consoleWarn changeNoPrevMsg] ∧
    (onFileChange env global st filePath).1 = { st with compilationError := false } ∧
    (∀ d : Disk, diskGet (applyTrace d (onFileChange env global st filePath).2.2)
        (outputCssPath st.config filePath) = some "") := by
  have hout := (onFileChange_entry_eq env global st filePath commonImports files
      hci hcf hent).trans
    (changeTail_noprior_eq env global st commonImports files filePath
      [Effect.consoleLog "File changed!"] imps herr hcomp hnoprior)
  refine ⟨compileSingle_success env st.config filePath imps hcomp, ?_, ?_, ?_⟩
  · rw [hout]
    rfl
  · rw [hout]
  · intro d
    rw [hout]
    simp [applyTrace, applyEffect, diskGet_diskSet]

/-- Witness for C10: an `added`-then-`changed` race shape — a change event
for `c.scss` with no prior artifact — leaves an empty `build/c.css` behind
on an initially empty disk. -/
theorem C10_witness :
    diskGet (applyTrace [] (onFileChange envC10 false stC3 "sass/c.scss").2.2)
      (outputCssPath cfg0 "sass/c.scss") = some "" := by
  have h := C10_compileSingle_creates_output envC10 false stC3 "sass/c.scss" []
    ["sass/_p.scss"] [cfA1, cfB] (by decide) rfl rfl rfl (by decide) (by decide)
  exact h.2.2.2 []

/-- `onFileAdd`, reduced under: persisted state, no pending error, the
added file is not a partial, and its compilation succeeds. -/
theorem onFileAdd_entry_eq (env : Env) (global : Bool) (st : BundlerState)
    (filePath : String) (commonImports : List String) (files : List CompiledFile)
    (newImports : List String)
    (hci : st.commonImports = some commonImports)
    (hcf : st.compiledFiles = some files)
    (herr : st.compilationError = false)
    (hent : strStartsWith (basename filePath) "_" = false)
    (hcomp : env.compile filePath = some newImports) :
    onFileAdd env global st filePath =
      (let newFile := newFileOf st.config filePath newImports
       let st2 : BundlerState :=
         { st with compilationError := false,
                   compiledFiles := some (files ++ [newFile]) }
       if (commonImports.filter (fun i => !newImports.contains i)).length > 0 then
         ((buildAll env st2 true).1, global,
          [Effect.consoleLog "File added!"] ++
            [Effect.createWriteStream (outputCssPath st.config filePath)] ++
            (buildAll env st2 true).2)
       else
         (st2, global,
          [Effect.consoleLog "File added!"] ++
            [Effect.createWriteStream (outputCssPath st.config filePath)] ++
            bundleSingle st.config newFile commonImports ++
            [Effect.consoleLog "File bundled (ms)"])) := by
  have hr := compileSingle_success env st.config filePath newImports hcomp
  unfold onFileAdd
  rw [hci, hcf]
  dsimp only
  rw [if_neg (show ¬ (strStartsWith (basename filePath) "_" = true) by simp [hent])]
  rw [hr]
  try dsimp only
  simp only [herr, Bool.or_false]
  rw [if_neg (show ¬ (false = true) by simp)]
  dsimp only [newFileOf]

/-- C6: adding an entry (state persisted, no pending error, not a partial,
compilation succeeds): the new artifact is appended to the collection, and
then a full rebuild runs if and only if `commonImports` is not a subset of
the new artifact's imports; otherwise only the new artifact is bundled
against the unchanged `commonImports`. -/
theorem C6_add_entry_decision (env : Env) (global : Bool) (st : BundlerState)
    (filePath : String) (commonImports : List String) (files : List CompiledFile)
    (newImports : List String)
    (hci : st.commonImports = some commonImports)
    (hcf : st.compiledFiles = some files)
    (herr : st.compilationError = false)
    (hent : strStartsWith (basename filePath) "_" = false)
    (hcomp : env.compile filePath = some newImports) :
    if ∃ i ∈ commonImports, i ∉ newImports then
      Effect.emptyDir st.config.outDir ∈ (onFileAdd env global st filePath).2.2 ∧
      (onFileAdd env global st filePath).1 =
        (buildAll env
          { st with compilationError := false,
                    compiledFiles :=
                      some (files ++ [newFileOf st.config filePath newImports]) }
          true).1
    else
      rebundledOnlyOne (onFileAdd env global st filePath)
        (newFileOf st.config filePath newImports) commonImports
        (files ++ [newFileOf st.config filePath newImports]) st.config.outDir := by
  have hout := onFileAdd_entry_eq env global st filePath commonImports files
    newImports hci hcf herr hent hcomp
  dsimp only at hout
  by_cases hM : ∃ i ∈ commonImports, i ∉ newImports
  · rw [if_pos hM]
    obtain ⟨i, hic, hin⟩ := hM
    have hmem : i ∈ commonImports.filter (fun j => !newImports.contains j) := by
      simp only [List.mem_filter, contains_eq_decide, Bool.not_eq_true',
        decide_eq_false_iff_not]
      exact ⟨hic, hin⟩
    rw [if_pos (List.length_pos_of_mem hmem)] at hout
    rw [hout]
    constructor
    · exact List.mem_append.mpr (Or.inr (emptyDir_mem_buildAll env _ true))
    · rfl
  · rw [if_neg hM]
    have hflt : commonImports.filter (fun j => !newImports.contains j) = [] := by
      apply List.filter_eq_nil_iff.mpr
      intro a ha
      simp only [contains_eq_decide, Bool.not_eq_true', decide_eq_false_iff_not,
        Decidable.not_not]
      by_contra hnot
      exact hM ⟨a, ha, hnot⟩
    rw [if_neg (show ¬ ((commonImports.filter (fun i => !newImports.contains i)).length > 0) by
      rw [hflt]
      simp)] at hout
    rw [hout]
    exact rebundledOnlyOne_mk st.config _ commonImports _ _ global _ _ _ _ hci rfl

/-- Witness for C6: adding `c.scss` whose imports include the lone
common import bundles only the new artifact. -/
theorem C6_witness :
    rebundledOnlyOne (onFileAdd envC6 false stC3 "sass/c.scss")
      (newFileOf cfg0 "sass/c.scss" ["sass/_p.scss"]) ["sass/_p.scss"]
      ([cfA1, cfB] ++ [newFileOf cfg0 "sass/c.scss" ["sass/_p.scss"]]) "build" := by
  have h := C6_add_entry_decision envC6 false stC3 "sass/c.scss" ["sass/_p.scss"]
    [cfA1, cfB] ["sass/_p.scss"] rfl rfl rfl (by decide) (by decide)
  rw [if_neg (by decide)] at h
  exact h

/-- C5 (amended): removing a partial imported by at least one current
artifact (state persisted) always sets the error flag, sets the one-shot
dedup flag, emits exactly one error report, and rewrites no output; when
the partial is a current common import it is additionally removed from the
in-memory `commonImports` but the report (`reportSharedRemoved`, a constant
message) does not enumerate the affected entries; when it is not a common
  import, the report enumerates exactly the artifacts importing it. -/
theorem C5_remove_referenced (env : Env) (global : Bool) (st : BundlerState)
    (filePath : String) (commonImports : List String) (files : List CompiledFile)
    (hci : st.commonImports = some commonImports)
    (hcf : st.compiledFiles = some files)
    (hund : strStartsWith (basename filePath) "_" = true)
    (href : (files.flatMap (fun f => f.imports)).contains filePath = true) :
    if filePath ∈ commonImports then
      onFileRemove env global st filePath =
        some ({ st with commonImports := some (commonImports.erase filePath),
                        compilationError := true }, true,
              [Effect.consoleLog "File removed!", Effect.reportSharedRemoved])
    else
      onFileRemove env global st filePath =
        some ({ st with compilationError := true }, true,
              [Effect.consoleLog "File removed!",
               Effect.reportUsedBy
                 ((files.filter (fun f => f.imports.contains filePath)).map
                   (fun f => f.filePath))]) := by
  unfold onFileRemove
  rw [hci, hcf]
  dsimp only
  rw [if_pos hund, if_pos href]
  by_cases hc : filePath ∈ commonImports
  · rw [if_pos hc]
    rw [if_pos (show commonImports.contains filePath = true by
      simp [contains_eq_decide, hc])]
    rfl
  · rw [if_neg hc]
    rw [if_neg (show ¬ (commonImports.contains filePath = true) by
      simp [contains_eq_decide, hc])]
    rfl

/-- C5 counterexample: removing the shared partial `_p.scss` (imported by
both entries) sets the flags and removes it from `commonImports`, but the
single error report is the constant shared-partial message: no effect in
the trace enumerates the affected entries `a.scss`, `b.scss` as the claim
requires. -/
theorem C5_counterexample :
    onFileRemove envC3 false stC3 "sass/_p.scss" =
      some ({ stC3 with commonImports := some [], compilationError := true }, true,
            [Effect.consoleLog "File removed!", Effect.reportSharedRemoved]) ∧
    Effect.reportUsedBy ["sass/a.scss", "sass/b.scss"] ∉
      [Effect.consoleLog "File removed!", Effect.reportSharedRemoved] := by
  refine ⟨by decide, by decide⟩

/-- Witness for the amended C5: removing the non-shared partial `_q.scss`
reports it with the one affected entry enumerated. -/
theorem C5_witness :
    onFileRemove envC3 false stC5w "sass/_q.scss" =
      some ({ stC5w with compilationError := true }, true,
            [Effect.consoleLog "File removed!",
             Effect.reportUsedBy ["sass/a.scss"]]) := by
  have h := C5_remove_referenced envC3 false stC5w "sass/_q.scss"
    ["sass/_p.scss"] [cfA, cfB] rfl rfl (by decide) (by decide)
  rw [if_neg (by decide)] at h
  exact h

/-- A failing non-partial entry makes `compileDirList` report an error. -/
theorem compileDirList_error (env : Env) (cfg : Config) (dirPath : String)
    (names : List String) (f : String)
    (hf : f ∈ names) (hund : strStartsWith f "_" = false)
    (hfail : env.compile (pathJoin dirPath f) = none) :
    (compileDirList env cfg dirPath names).2.2 = true := by
  induction names with
  | nil => cases hf
  | cons x xs ih =>
    rcases List.mem_cons.mp hf with rfl | hx
    · unfold compileDirList
      rw [if_neg (show ¬ (strStartsWith f "_" = true) by simp [hund])]
      dsimp only
      simp [compileSingle, hfail]
    · unfold compileDirList
      by_cases hu : strStartsWith x "_" = true
      · rw [if_pos hu]
        exact ih hx
      · rw [if_neg hu]
        dsimp only
        simp [ih hx]

/-- The compile scan emits only write-stream creations and compile-error
logs. -/
theorem compileDirList_effects (env : Env) (cfg : Config) (dirPath : String)
    (names : List String) (e : Effect)
    (he : e ∈ (compileDirList env cfg dirPath names).2.1) :
    (∃ p, e = Effect.createWriteStream p) ∨ (∃ p, e = Effect.compileErrorLog p) := by
  induction names with
  | nil => simp [compileDirList] at he
  | cons x xs ih =>
    unfold compileDirList at he
    by_cases hu : strStartsWith x "_" = true
    · rw [if_pos hu] at he
      exact ih he
    · rw [if_neg hu] at he
      dsimp only at he
      rcases List.mem_append.mp he with h | h
      · rcases hcc : env.compile (pathJoin dirPath x) with _ | imps <;>
          simp [compileSingle, hcc] at h
        · exact Or.inr ⟨_, h⟩
        · exact Or.inl ⟨_, h⟩
      · exact ih h

/-- A full build whose scan hits a failing entry aborts right after the
scan: error flag set, persisted state untouched, trace = logs, clean,
compile effects. -/
theorem buildAll_compile_fail (env : Env) (st : BundlerState) (persist : Bool)
    (herr : st.compilationError = false)
    (hfail : ∃ f ∈ env.dirList st.config.sassDir, strStartsWith f "_" = false ∧
        env.compile (pathJoin st.config.sassDir f) = none) :
    buildAll env st persist =
      ({ st with compilationError := true },
       [Effect.consoleLog "---------------", Effect.consoleLog "Bundling SCSS..."] ++
         cleanDist st.config ++ (compileDir env st.config st.config.sassDir).2.1) := by
  obtain ⟨f, hf, hu, hc⟩ := hfail
  have herrC : (compileDir env st.config st.config.sassDir).2.2 = true :=
    compileDirList_error env st.config st.config.sassDir _ f hf hu hc
  unfold buildAll
  dsimp only
  rw [herr, herrC]
  rw [if_pos (show (false || true) = true by rfl)]

/-- C4 (amended): a compile failure on any entry during a full build makes
the build abort without bundling any page output, without touching the
shared output file, and without replacing the persisted artifacts or
common imports — but the output directory has already been emptied at the
start of the build (destroying the previous cycle's outputs), and entries
scanned before the failure have had their output files created by the
write streams. -/
theorem C4_full_build_failure (env : Env) (st : BundlerState) (persist : Bool)
    (herr : st.compilationError = false)
    (hfail : ∃ f ∈ env.dirList st.config.sassDir, strStartsWith f "_" = false ∧
        env.compile (pathJoin st.config.sassDir f) = none) :
    (buildAll env st persist).1.compilationError = true ∧
    (buildAll env st persist).1.compiledFiles = st.compiledFiles ∧
    (buildAll env st persist).1.commonImports = st.commonImports ∧
    Effect.emptyDir st.config.outDir ∈ (buildAll env st persist).2 ∧
    (∀ e o inl, Effect.bundleOut e o inl ∉ (buildAll env st persist).2) ∧
    (∀ o c, Effect.pipeShared o c ∉ (buildAll env st persist).2) ∧
    (∀ p, Effect.endShared p ∉ (buildAll env st persist).2) := by
  rw [buildAll_compile_fail env st persist herr hfail]
  refine ⟨rfl, rfl, rfl, by simp [cleanDist], ?_, ?_, ?_⟩
  · intro e o inl hmem
    simp only [cleanDist, List.mem_append, List.mem_cons, List.not_mem_nil] at hmem
    rcases hmem with ((h | h | h) | (h | h | h)) | h <;>
      first
      | cases h
      | rcases compileDirList_effects env st.config st.config.sassDir _ _ h with ⟨p, hp⟩ | ⟨p, hp⟩ <;>
          cases hp
  · intro o c hmem
    simp only [cleanDist, List.mem_append, List.mem_cons, List.not_mem_nil] at hmem
    rcases hmem with ((h | h | h) | (h | h | h)) | h <;>
      first
      | cases h
      | rcases compileDirList_effects env st.config st.config.sassDir _ _ h with ⟨p, hp⟩ | ⟨p, hp⟩ <;>
          cases hp
  · intro p hmem
    simp only [cleanDist, List.mem_append, List.mem_cons, List.not_mem_nil] at hmem
    rcases hmem with ((h | h | h) | (h | h | h)) | h <;>
      first
      | cases h
      | rcases compileDirList_effects env st.config st.config.sassDir _ _ h with ⟨q, hq⟩ | ⟨q, hq⟩ <;>
          cases hq

/-- C4 counterexample: with prior outputs `build/a.css`, `build/b.css` on
disk, a full build in which `bad.scss` fails to compile deletes
`build/b.css` (the initial `emptyDir`) and truncates `build/a.css` to
empty (its write stream was created before the failure) — the prior
cycle's outputs do not remain untouched as the claim states. -/
theorem C4_counterexample :
    diskGet diskC4 "build/b.css" = some "oldB" ∧
    diskGet (applyTrace diskC4 (buildAll envC4 stFresh true).2) "build/b.css" = none ∧
    diskGet (applyTrace diskC4 (buildAll envC4 stFresh true).2) "build/a.css" = some "" ∧
    (buildAll envC4 stFresh true).1.compilationError = true := by
  refine ⟨by decide, by decide, by decide, by decide⟩

/-- Witness for the amended C4 at the concrete failing build. -/
theorem C4_witness :
    (buildAll envC4 stFresh true).1.compilationError = true ∧
    Effect.emptyDir "build" ∈ (buildAll envC4 stFresh true).2 ∧
    (∀ e o inl, Effect.bundleOut e o inl ∉ (buildAll envC4 stFresh true).2) := by
  have h := C4_full_build_failure envC4 stFresh true rfl
    ⟨"bad.scss", by decide, by decide, by decide⟩
  exact ⟨h.1, h.2.2.2.1, h.2.2.2.2.1⟩

/-- The recompile tail when the compiler throws: the instance error flag
and the module-level dedup flag are both set and the handler aborts. -/
theorem changeTail_fail_eq (env : Env) (global : Bool) (st : BundlerState)
    (commonImports : List String) (files : List CompiledFile)
    (filePath : String) (esPre : List Effect)
    (hfail : env.compile filePath = none) :
    changeTail env global st commonImports files filePath esPre =
      ({ st with compilationError := true }, true,
       esPre ++ [Effect.compileErrorLog filePath]) := by
  have hr : compileSingle env st.config filePath =
      ({ imports := [], filePath := filePath, readStream := false,
         writeStream := none, error := true },
       [Effect.compileErrorLog filePath], true) := by
    simp [compileSingle, hfail]
  unfold changeTail
  rw [hr]
  try dsimp only
  rw [if_pos (show (st.compilationError || true) = true from Bool.or_true _)]
  simp [Bool.or_true]

/-- C8 (amended): the one-shot dedup flag is module-scoped mutable state
shared by every `Bundler` instance.  A change event whose recompilation
fails on one instance sets the shared flag; a generic event on *any*
instance whose own error flag is set then consumes the shared flag and is
suppressed (no rebuild), whereas with the shared flag clear the very same
instance performs a recovery full rebuild — so handling an event on one
instance changes another instance's suppression behaviour. -/
theorem C8_dedup_flag_shared (env env2 : Env) (st st2 : BundlerState)
    (filePath : String) (commonImports : List String) (files : List CompiledFile)
    (hci : st.commonImports = some commonImports)
    (hcf : st.compiledFiles = some files)
    (herr : st.compilationError = false)
    (hent : strStartsWith (basename filePath) "_" = false)
    (hfail : env.compile filePath = none)
    (h2 : st2.compilationError = true) :
    (onFileChange env false st filePath).2.1 = true ∧
    onAnyEvent env2 true st2 = (st2, false, []) ∧
    Effect.emptyDir st2.config.outDir ∈ (onAnyEvent env2 false st2).2.2 := by
  refine ⟨?_, ?_, ?_⟩
  · rw [onFileChange_entry_eq env false st filePath commonImports files hci hcf hent,
        changeTail_fail_eq env false st commonImports files filePath _ hfail]
  · unfold onAnyEvent
    rw [h2]
    rfl
  · unfold onAnyEvent
    rw [h2]
    exact emptyDir_mem_buildAll env2 _ true

/-- C8 counterexample: a failed change event on instance 1 returns the
shared dedup flag set; with that flag set, instance 2's generic event is
suppressed outright (flag consumed, no effects), while with the flag clear
the same instance 2 event performs a recovery full rebuild — one
instance's event changed the other's suppression behaviour, so the flag is
not instance-scoped. -/
theorem C8_counterexample :
    (onFileChange envFail false stC3 "sass/a.scss").2.1 = true ∧
    onAnyEvent envC3 true stErr2 = (stErr2, false, []) ∧
    Effect.emptyDir "build2" ∈ (onAnyEvent envC3 false stErr2).2.2 := by
  refine ⟨by decide, by decide, by decide⟩

/-- Witness for the amended C8 at the concrete two-instance scenario. -/
theorem C8_witness :
    (onFileChange envFail false stC3 "sass/a.scss").2.1 = true ∧
    onAnyEvent envC3 true stErr2 = (stErr2, false, []) ∧
    Effect.emptyDir stErr2.config.outDir ∈ (onAnyEvent envC3 false stErr2).2.2 :=
  C8_dedup_flag_shared envFail envC3 stC3 stErr2 "sass/a.scss" ["sass/_p.scss"]
    [cfA1, cfB] rfl rfl rfl (by decide) rfl rfl

/-- `compileSingle` always records the compiled path in the artifact. -/
theorem compileSingle_filePath (env : Env) (cfg : Config) (p : String) :
    (compileSingle env cfg p).1.filePath = p := by
  unfold compileSingle
  rcases env.compile p with _ | imps <;> rfl

/-- The artifacts of one directory scan are exactly the non-partial names
listed directly in the directory, joined onto it — no recursion. -/
theorem compileDirList_files (env : Env) (cfg : Config) (dirPath : String)
    (names : List String) :
    (compileDirList env cfg dirPath names).1.map (fun cf => cf.filePath) =
      (names.filter (fun n => !(strStartsWith n "_"))).map (pathJoin dirPath) := by
  induction names with
  | nil => rfl
  | cons x xs ih =>
    unfold compileDirList
    by_cases hu : strStartsWith x "_" = true
    · rw [if_pos hu]
      simp only [List.filter_cons, hu, Bool.not_true, List.map_cons]
      exact ih
    · rw [if_neg hu]
      dsimp only
      rw [Bool.not_eq_true] at hu
      simp only [List.filter_cons, hu, Bool.not_false, List.map_cons,
        compileSingle_filePath]
      rw [ih]
      simp

/-- A successfully compiled listed entry appears among the scan's
artifacts. -/
theorem mem_compileDirList (env : Env) (cfg : Config) (dirPath : String)
    (names : List String) (f : String) (imps : List String)
    (hf : f ∈ names) (hund : strStartsWith f "_" = false)
    (hcomp : env.compile (pathJoin dirPath f) = some imps) :
    newFileOf cfg (pathJoin dirPath f) imps ∈ (compileDirList env cfg dirPath names).1 := by
  induction names with
  | nil => cases hf
  | cons x xs ih =>
    rcases List.mem_cons.mp hf with rfl | hx
    · unfold compileDirList
      rw [if_neg (show ¬ (strStartsWith f "_" = true) by simp [hund])]
      dsimp only
      rw [compileSingle_success env cfg (pathJoin dirPath f) imps hcomp]
      exact List.mem_cons_self _ _
    · unfold compileDirList
      by_cases hu : strStartsWith x "_" = true
      · rw [if_pos hu]
        exact ih hx
      · rw [if_neg hu]
        dsimp only
        exact List.mem_cons_of_mem _ (ih hx)

/-- The write-stream creation of a successfully compiled listed entry
appears in the scan's trace. -/
theorem createWS_mem_compileDirList (env : Env) (cfg : Config) (dirPath : String)
    (names : List String) (f : String) (imps : List String)
    (hf : f ∈ names) (hund : strStartsWith f "_" = false)
    (hcomp : env.compile (pathJoin dirPath f) = some imps) :
    Effect.createWriteStream (outputCssPath cfg (pathJoin dirPath f)) ∈
      (compileDirList env cfg dirPath names).2.1 := by
  induction names with
  | nil => cases hf
  | cons x xs ih =>
    rcases List.mem_cons.mp hf with rfl | hx
    · unfold compileDirList
      rw [if_neg (show ¬ (strStartsWith f "_" = true) by simp [hund])]
      dsimp only
      rw [compileSingle_success env cfg (pathJoin dirPath f) imps hcomp]
      exact List.mem_append.mpr (Or.inl (List.mem_singleton.mpr rfl))
    · unfold compileDirList
      by_cases hu : strStartsWith x "_" = true
      · rw [if_pos hu]
        exact ih hx
      · rw [if_neg hu]
        dsimp only
        exact List.mem_append.mpr (Or.inr (ih hx))

/-- Every effect of the compile scan appears in the full-build trace. -/
theorem compileDir_effects_mem_buildAll (env : Env) (st : BundlerState)
    (persist : Bool) (e : Effect)
    (he : e ∈ (compileDir env st.config st.config.sassDir).2.1) :
    e ∈ (buildAll env st persist).2 := by
  unfold buildAll
  dsimp only
  split
  · simp [he]
  · split <;> simp [he]

/-- C9 (amended): a full build compiles exactly the non-partial files
listed *directly* in the source directory — `readdirSync` does not recurse
into subdirectories — and each such file that compiles successfully yields
an artifact at the source path with an output write stream created at the
same relative path under the output directory with the extension rewritten
to `.css`. -/
theorem C9_full_build_coverage (env : Env) (st : BundlerState) (persist : Bool)
    (f : String) (imps : List String)
    (hf : f ∈ env.dirList st.config.sassDir)
    (hund : strStartsWith f "_" = false)
    (hcomp : env.compile (pathJoin st.config.sassDir f) = some imps) :
    ((compileDir env st.config st.config.sassDir).1.map (fun cf => cf.filePath) =
      ((env.dirList st.config.sassDir).filter (fun n => !(strStartsWith n "_"))).map
        (pathJoin st.config.sassDir)) ∧
    newFileOf st.config (pathJoin st.config.sassDir f) imps ∈
      (compileDir env st.config st.config.sassDir).1 ∧
    Effect.createWriteStream (outputCssPath st.config (pathJoin st.config.sassDir f)) ∈
      (buildAll env st persist).2 := by
  refine ⟨compileDirList_files env st.config st.config.sassDir _, ?_, ?_⟩
  · exact mem_compileDirList env st.config st.config.sassDir _ f imps hf hund hcomp
  · exact compileDir_effects_mem_buildAll env st persist _
      (createWS_mem_compileDirList env st.config st.config.sassDir _ f imps hf hund hcomp)

/-- C9 counterexample: `b.scss` is a non-partial stylesheet inside a
nested subdirectory of the source tree and would compile, yet the full
build's artifact collection contains only the top-level `a.scss` and no
output is created for the nested file — the scan never recurses. -/
theorem C9_counterexample :
    "b.scss" ∈ envC9.dirList "sass/_sub" ∧
    strStartsWith "b.scss" "_" = false ∧
    envC9.compile "sass/_sub/b.scss" = some [] ∧
    (buildAll envC9 stFresh true).1.compiledFiles =
      some [newFileOf cfg0 "sass/a.scss" []] ∧
    Effect.createWriteStream "build/_sub/b.css" ∉ (buildAll envC9 stFresh true).2 := by
  refine ⟨by decide, by decide, by decide, by decide, by decide⟩

/-- Witness for the amended C9 at the concrete two-level tree. -/
theorem C9_witness :
    ((compileDir envC9 stFresh.config stFresh.config.sassDir).1.map
        (fun cf => cf.filePath) =
      ((envC9.dirList stFresh.config.sassDir).filter
          (fun n => !(strStartsWith n "_"))).map (pathJoin stFresh.config.sassDir)) ∧
    newFileOf stFresh.config (pathJoin stFresh.config.sassDir "a.scss") [] ∈
      (compileDir envC9 stFresh.config stFresh.config.sassDir).1 ∧
    Effect.createWriteStream
        (outputCssPath stFresh.config (pathJoin stFresh.config.sassDir "a.scss")) ∈
      (buildAll envC9 stFresh true).2 :=
  C9_full_build_coverage envC9 stFresh true "a.scss" [] (by decide) (by decide)
    (by decide)

/-- C7 failing input evaluated: removing the entry `a.scss` changes the
recomputed common imports (`[] → [_p.scss]`), so the handler deletes
`build/a.css` and then runs the full rebuild — the call the source does
not await. -/
theorem C7_remove_triggers_unawaited_rebuild :
    Effect.unlinkFile "build/a.css" ∈
      ((onFileRemove envC7 false stC7 "sass/a.scss").getD (stC7, true, [])).2.2 ∧
    Effect.emptyDir "build" ∈
      ((onFileRemove envC7 false stC7 "sass/a.scss").getD (stC7, true, [])).2.2 ∧
    (onFileRemove envC7 false stC7 "sass/a.scss").isSome = true := by
  refine ⟨by decide, by decide, by decide⟩

end SassBundler
